import Mathlib

/-!
Verification of the Bitrix24 openlines-closer webhook relay (server.js).

The development shallowly embeds the relay logic of server.js:
JSON-ish JavaScript values (JVal), the truthiness / ToString / ToNumber
coercions that the handler relies on, the outbound REST caller bx with an
explicit transport oracle and a trace of outbound calls, the two-step chat
resolution-and-closure workflow, the deal-id extraction, and the
post-acknowledgment dispatcher.

Modelling notes:
- JavaScript numbers are modelled as exact rationals plus NaN and the two
  infinities (JNum).  IEEE-754 rounding and float formatting are outside the
  model; the only claim whose truth depends on them is settled separately.
- ToNumber string parsing covers the decimal, sign, fraction, exponent,
  hex / octal / binary and Infinity forms of the JavaScript grammar, with
  ASCII whitespace trimming.
- String rendering of non-integer rationals is a placeholder (num/den);
  no theorem depends on the rendering of non-integer numbers.
-/

namespace OpenlinesCloser

/-- A JSON-ish JavaScript value as it flows through the handler: the parsed
request body fields, the parsed REST response, and the parameters of an
outbound call. `undefined` stands for a missing property. -/
inductive JVal where
  | null
  | undefined
  | bool (b : Bool)
  | num (q : ℚ)
  | str (s : String)
  | arr (xs : List JVal)
  | obj (fields : List (String × JVal))

/-- The value domain of the JavaScript Number type, up to IEEE-754 rounding:
an exact rational, NaN, or one of the infinities. -/
inductive JNum where
  | nan
  | posInf
  | negInf
  | rat (q : ℚ)
deriving DecidableEq

/-- JavaScript truthiness of a value. -/
def truthy : JVal → Bool
  | .null => false
  | .undefined => false
  | .bool b => b
  | .num q => !(q == 0)
  | .str s => !(s == "")
  | .arr _ => true
  | .obj _ => true

/-- Decimal digit characters of a natural number, most significant first,
written with explicit fuel so that it is structurally recursive and
kernel-computable.  With fuel at least n + 1 the fuel never runs out. -/
def natDigsCore : ℕ → ℕ → List Char → List Char
  | 0, _, acc => acc
  | fuel + 1, n, acc =>
    let d := Nat.digitChar (n % 10)
    if n < 10 then d :: acc else natDigsCore fuel (n / 10) (d :: acc)

/-- Decimal string of a natural number. -/
def natStr (n : ℕ) : String := String.mk (natDigsCore (n + 1) n [])

/-- Decimal string of an integer. -/
def intStr (i : ℤ) : String :=
  if i < 0 then "-" ++ natStr i.natAbs else natStr i.natAbs

/-- String(n) for a JavaScript number.  Exact for integers; a non-integer
rational is rendered as num/den, standing in for the shortest-round-trip
float formatting that is outside this model.  No theorem below depends on
the rendering of non-integer numbers. -/
def numToString (q : ℚ) : String :=
  if q.den = 1 then intStr q.num else intStr q.num ++ "/" ++ natStr q.den

mutual

/-- String(v): the JavaScript string coercion used by the handler
(String(q) on the query value, String(v) on outbound parameters,
String(chatId) on the resolved chat id). -/
def jsToString : JVal → String
  | .null => "null"
  | .undefined => "undefined"
  | .bool b => if b then "true" else "false"
  | .num q => numToString q
  | .str s => s
  | .arr xs => jsArrJoin xs
  | .obj _ => "[object Object]"

/-- Array.prototype.toString: elements joined with commas, where null and
undefined elements render as the empty string. -/
def jsArrJoin : List JVal → String
  | [] => ""
  | [v] => jsElem v
  | v :: rest => jsElem v ++ "," ++ jsArrJoin rest

/-- One array element inside Array.prototype.toString. -/
def jsElem : JVal → String
  | .null => ""
  | .undefined => ""
  | .bool b => if b then "true" else "false"
  | .num q => numToString q
  | .str s => s
  | .arr xs => jsArrJoin xs
  | .obj _ => "[object Object]"

end

/-- Numeric value of an ASCII decimal digit character. -/
def digVal (c : Char) : ℕ := c.toNat - 48

/-- Value of a list of decimal digit characters. -/
def decVal (l : List Char) : ℕ := l.foldl (fun a c => a * 10 + digVal c) 0

/-- Value of a hexadecimal digit character, if it is one. -/
def hexDigVal (c : Char) : Option ℕ :=
  if c.isDigit then some (digVal c)
  else if 97 ≤ c.toNat ∧ c.toNat ≤ 102 then some (c.toNat - 87)
  else if 65 ≤ c.toNat ∧ c.toNat ≤ 70 then some (c.toNat - 55)
  else none

/-- Value of digit characters in base b (b ≤ 16); none on any invalid digit. -/
def radixVal (b : ℕ) (l : List Char) : Option ℕ :=
  l.foldl
    (fun acc c =>
      match acc, hexDigVal c with
      | some a, some d => if d < b then some (a * b + d) else none
      | _, _ => none)
    (some 0)

/-- Parse the unsigned mantissa of a JavaScript decimal number literal:
digits, digits.digits, .digits or digits. — returning its exact rational
value and the unconsumed remainder. -/
def parseDecCore (l : List Char) : Option (ℚ × List Char) :=
  let ip := l.takeWhile Char.isDigit
  let r1 := l.dropWhile Char.isDigit
  match r1 with
  | '.' :: r2 =>
    let fp := r2.takeWhile Char.isDigit
    let r3 := r2.dropWhile Char.isDigit
    if ip.isEmpty && fp.isEmpty then none
    else some ((decVal ip : ℚ) + (decVal fp : ℚ) / ((10 : ℚ) ^ fp.length), r3)
  | _ => if ip.isEmpty then none else some ((decVal ip : ℚ), r1)

/-- Parse the optional exponent part that must consume the whole remainder:
empty means exponent 0; e or E followed by an optional sign and digits. -/
def parseExp (l : List Char) : Option ℤ :=
  match l with
  | [] => some 0
  | c :: r =>
    if c = 'e' ∨ c = 'E' then
      match r with
      | '+' :: t => if t.isEmpty || !t.all Char.isDigit then none else some (decVal t)
      | '-' :: t => if t.isEmpty || !t.all Char.isDigit then none else some (-(decVal t : ℤ))
      | t => if t.isEmpty || !t.all Char.isDigit then none else some (decVal t)
    else none

/-- Parse an unsigned JavaScript decimal literal (mantissa and exponent),
the whole list must be consumed.  Exponent zero is returned without a
multiplication so that plain digit strings evaluate by kernel reduction. -/
def parseUnsignedDec (l : List Char) : Option ℚ :=
  match parseDecCore l with
  | none => none
  | some (m, rest) =>
    match parseExp rest with
    | none => none
    | some 0 => some m
    | some e => some (m * (10 : ℚ) ^ e)

/-- Signed decimal form of Number(string): optional sign then decimal
literal; NaN when the grammar is not matched. -/
def decSigned (l : List Char) : JNum :=
  match l with
  | '+' :: t =>
    match parseUnsignedDec t with
    | some q => .rat q
    | none => .nan
  | '-' :: t =>
    match parseUnsignedDec t with
    | some q => .rat (-q)
    | none => .nan
  | t =>
    match parseUnsignedDec t with
    | some q => .rat q
    | none => .nan

/-- Trim ASCII whitespace from both ends of a character list. -/
def trimChars (l : List Char) : List Char :=
  ((l.dropWhile Char.isWhitespace).reverse.dropWhile Char.isWhitespace).reverse

/-- Number(s) for a string s: the JavaScript string-to-number conversion.
Empty (after trimming) is 0; Infinity forms; 0x / 0o / 0b radix forms
(unsigned only); otherwise the signed decimal grammar; anything else NaN. -/
def jsStringToNumber (s : String) : JNum :=
  let l := trimChars s.toList
  match l with
  | [] => .rat 0
  | _ =>
    if l = "Infinity".toList ∨ l = "+Infinity".toList then .posInf
    else if l = "-Infinity".toList then .negInf
    else
      match l with
      | '0' :: x :: rest =>
        if x = 'x' ∨ x = 'X' then
          match rest, radixVal 16 rest with
          | _ :: _, some n => .rat n
          | _, _ => .nan
        else if x = 'o' ∨ x = 'O' then
          match rest, radixVal 8 rest with
          | _ :: _, some n => .rat n
          | _, _ => .nan
        else if x = 'b' ∨ x = 'B' then
          match rest, radixVal 2 rest with
          | _ :: _, some n => .rat n
          | _, _ => .nan
        else decSigned l
      | _ => decSigned l

/-- Number(v): the JavaScript number coercion.  Objects and arrays go
through their string coercion, as ToPrimitive does for plain arrays and
objects. -/
def jsToNumber : JVal → JNum
  | .null => .rat 0
  | .undefined => .nan
  | .bool b => .rat (if b then 1 else 0)
  | .num q => .rat q
  | .str s => jsStringToNumber s
  | .arr xs => jsStringToNumber (jsArrJoin xs)
  | .obj _ => jsStringToNumber "[object Object]"

/-- If p is an initial segment of l, drop it and return the remainder. -/
def dropLead : List Char → List Char → Option (List Char)
  | [], l => some l
  | _ :: _, [] => none
  | p :: ps, c :: cs => if p = c then dropLead ps cs else none

/-- Whether pat is an initial segment of l. -/
def listLead : List Char → List Char → Bool
  | [], _ => true
  | _ :: _, [] => false
  | p :: ps, c :: cs => p = c && listLead ps cs

/-- Whether pat occurs as a contiguous segment of l. -/
def listHasSub (pat : List Char) : List Char → Bool
  | [] => listLead pat []
  | c :: rest => listLead pat (c :: rest) || listHasSub pat rest

/-- e.message.includes(pat): substring containment on strings. -/
def hasSub (s pat : String) : Bool := listHasSub pat.toList s.toList

/-- s.startsWith(pat). -/
def strBegins (s pat : String) : Bool := listLead pat.toList s.toList

/-- Whether s ends with pat. -/
def strEnds (s pat : String) : Bool := listLead pat.toList.reverse s.toList.reverse

/-- The first match of the regular expression DEAL_(\d+): scan positions
left to right; at the first position where the literal DEAL_ is followed by
at least one digit, capture the maximal digit run.  Exactly the backtracking
behaviour of s.match on this pattern. -/
def dealScan : List Char → Option (List Char)
  | [] => none
  | c :: rest =>
    match dropLead "DEAL_".toList (c :: rest) with
    | some after =>
      let ds := after.takeWhile Char.isDigit
      if ds.isEmpty then dealScan rest else some ds
    | none => dealScan rest

/-- The test of the anchored regular expression digits-only pattern used on
the query parameter: nonempty and all ASCII digits. -/
def isAllDigits (s : String) : Bool := !s.toList.isEmpty && s.toList.all Char.isDigit

/-- n <= 0 as JavaScript evaluates it on a Number (false on NaN). -/
def jsLeZero : JNum → Bool
  | .nan => false
  | .posInf => false
  | .negInf => true
  | .rat q => q ≤ 0

/-- 0 < n as JavaScript evaluates it on a Number (false on NaN). -/
def jsGtZero : JNum → Bool
  | .nan => false
  | .posInf => true
  | .negInf => false
  | .rat q => 0 < q

/-- extractDealId of server.js, lines 109-122: first the query parameter
deal_id — the raw value must be truthy and its string coercion must match
the anchored digits-only pattern, giving back exactly String(q); otherwise
element 2 of body.document_id when document_id is an array and that element
a string, matched against DEAL_(\d+); otherwise null. -/
def extractFromDocumentId (document_id : Option JVal) : Option String :=
  match document_id with
  | some (JVal.arr xs) =>
    match xs.get? 2 with
    | some (JVal.str s) => (dealScan s.toList).map String.mk
    | _ => none
  | _ => none

/-- The full extraction, lines 109-122 of server.js (query first, body
second). -/
def extractDealId (deal_id document_id : Option JVal) : Option String :=
  match deal_id with
  | some q =>
    if truthy q && isAllDigits (jsToString q) then some (jsToString q)
    else extractFromDocumentId document_id
  | none => extractFromDocumentId document_id

/-- A tenant row of the companies table, as read by getCompanyByMemberId. -/
structure Company where
  id : ℤ
  name : Option String
  member_id : String
  bitrix_webhook_url : Option String
  enabled : Bool

/-- One outbound HTTP POST as issued by bx: the full URL and the
form-urlencoded parameter pairs. -/
structure Call where
  url : String
  params : List (String × String)
deriving DecidableEq

/-- What the transport (fetch plus res.json()) yields for one outbound
call: either a network-level rejection, or a response with its ok flag,
statusText, and parsed JSON body (none when res.json() failed, which bx
replaces by an empty object). -/
inductive TransportResp where
  | netError (msg : String)
  | resp (ok : Bool) (statusText : String) (body : Option JVal)

/-- The transport oracle: a deterministic assignment of a response to every
outbound URL and parameter list. -/
abbrev Transport := String → List (String × String) → TransportResp

/-- The base URL computation of bx, line 143: String(url or empty),
then replace(trailing-optional-slash, slash), i.e. append a slash unless
one is already there. -/
def bxBase (c : Company) : String :=
  let raw := c.bitrix_webhook_url.getD ""
  if strEnds raw "/" then raw else raw ++ "/"

/-- The guard of bx, line 144: base empty or not starting with http. -/
def bxGuardFails (c : Company) : Bool :=
  bxBase c == "" || !strBegins (bxBase c) "http"

/-- The URL of one bx call, line 148. -/
def bxUrl (c : Company) (method : String) : String := bxBase c ++ method

/-- Lines 150-153: each parameter value is appended as itself when it is a
string and as String(v) otherwise — which is jsToString in both cases. -/
def encodeParams (params : List (String × JVal)) : List (String × String) :=
  params.map (fun kv => (kv.1, jsToString kv.2))

/-- Property read obj.k as JavaScript performs it on a parsed JSON value:
a TypeError on null (and undefined), the last binding of the key on an
object (duplicate JSON keys resolve to the last), undefined elsewhere. -/
def lookupField (fs : List (String × JVal)) (k : String) : JVal :=
  fs.foldl (fun acc kv => if kv.1 = k then kv.2 else acc) JVal.undefined

/-- The TypeError message raised by reading a property of null. -/
def typeErrorMsg (k : String) : String :=
  "TypeError: Cannot read properties of null (reading " ++ k ++ ")"

/-- Reading json.k inside bx; Except.error carries the thrown message. -/
def jsGet : JVal → String → Except String JVal
  | .null, k => .error (typeErrorMsg k)
  | .undefined, k => .error (typeErrorMsg k)
  | .obj fs, k => .ok (lookupField fs k)
  | _, _ => .ok .undefined

/-- Lines 166-177 of bx, after the transport produced a response:
json is the parsed body or an empty object when parsing failed; then
if (not res.ok or json.error) throw method-arrow-m where m is the first
truthy of json.error_description, json.error, res.statusText, and the
fixed fallback; otherwise return json.result.  Property reads follow the
JavaScript evaluation order, including the short-circuit of the condition,
so a null JSON body raises a TypeError instead of the formatted error. -/
def bxResponseOutcome (method : String) (resOk : Bool) (statusText : String)
    (mb : Option JVal) : Except String JVal :=
  let json := mb.getD (JVal.obj [])
  if resOk = false then
    match jsGet json "error_description" with
    | .error t => .error t
    | .ok ed =>
      match jsGet json "error" with
      | .error t => .error t
      | .ok er =>
        let m := if truthy ed then ed
                 else if truthy er then er
                 else if statusText ≠ "" then JVal.str statusText
                 else JVal.str "Unknown error"
        .error (method ++ " → " ++ jsToString m)
  else
    match jsGet json "error" with
    | .error t => .error t
    | .ok er =>
      if truthy er then
        match jsGet json "error_description" with
        | .error t => .error t
        | .ok ed =>
          let m := if truthy ed then ed
                   else if truthy er then er
                   else if statusText ≠ "" then JVal.str statusText
                   else JVal.str "Unknown error"
          .error (method ++ " → " ++ jsToString m)
      else
        match jsGet json "result" with
        | .error t => .error t
        | .ok r => .ok r

/-- bx of server.js, lines 137-181: validate the base URL, build the URL and
the form-urlencoded body, perform one transport call, and interpret the
response.  The first component is the trace of outbound calls actually
issued (empty when the URL guard throws before fetch). -/
def bx (tr : Transport) (c : Company) (method : String)
    (params : List (String × JVal)) : List Call × Except String JVal :=
  if bxGuardFails c then
    ([], .error "bitrix_webhook_url пустой или некорректный")
  else
    let url := bxUrl c method
    let ps := encodeParams params
    match tr url ps with
    | .netError m => ([⟨url, ps⟩], .error m)
    | .resp ok st mb => ([⟨url, ps⟩], bxResponseOutcome method ok st mb)

/-- The record returned by getLastOpenlinesChatIdForDeal: chatId is null or
String(chatId); reason is null or the Russian diagnostic. -/
structure ChatLookup where
  chatId : Option String
  reason : Option String

/-- getLastOpenlinesChatIdForDeal of server.js, lines 184-214:
id = Number(dealId); non-finite ids short-circuit; one bx call to
imopenlines.crm.chat.getLastId with CRM_ENTITY_TYPE DEAL and the numeric
id; a failure whose message contains the not-found marker is swallowed into
the no-chat outcome, every other failure is rethrown; a falsy or
non-positive chat id is the no-chat outcome; otherwise the chat id is
returned as a string. -/
def getLastOpenlinesChatIdForDeal (tr : Transport) (c : Company)
    (dealId : String) : List Call × Except String ChatLookup :=
  match jsStringToNumber dealId with
  | JNum.rat id =>
    match bx tr c "imopenlines.crm.chat.getLastId"
        [("CRM_ENTITY_TYPE", JVal.str "DEAL"), ("CRM_ENTITY", JVal.num id)] with
    | (calls, .error e) =>
      if hasSub e "Could not find CRM entity" then
        (calls, .ok ⟨none, some "Активный чат не найден"⟩)
      else (calls, .error e)
    | (calls, .ok chat) =>
      if !truthy chat || jsLeZero (jsToNumber chat) then
        (calls, .ok ⟨none, some "Активный чат не найден"⟩)
      else (calls, .ok ⟨some (jsToString chat), none⟩)
  | _ => ([], .ok ⟨none, some "Некорректный ID сделки"⟩)

/-- The record returned by finishOpenlinesChatIfAny. -/
structure FinishResult where
  found : Bool
  finished : Bool
  chatId : Option String
  reason : Option String

/-- finishOpenlinesChatIfAny of server.js, lines 216-230: resolve the last
chat id; a falsy chat id is the early no-chat exit; otherwise one bx call to
imopenlines.operator.another.finish with CHAT_ID, whose failure propagates
and whose success yields the found-and-finished record. -/
def finishOpenlinesChatIfAny (tr : Transport) (c : Company)
    (dealId : String) : List Call × Except String FinishResult :=
  match getLastOpenlinesChatIdForDeal tr c dealId with
  | (calls1, .error e) => (calls1, .error e)
  | (calls1, .ok lk) =>
    match lk.chatId with
    | none => (calls1, .ok ⟨false, false, none, lk.reason⟩)
    | some cid =>
      if cid == "" then (calls1, .ok ⟨false, false, none, lk.reason⟩)
      else
        match bx tr c "imopenlines.operator.another.finish"
            [("CHAT_ID", JVal.str cid)] with
        | (calls2, .error e) => (calls1 ++ calls2, .error e)
        | (calls2, .ok _) => (calls1 ++ calls2, .ok ⟨true, true, some cid, none⟩)

/-- Truthiness of the stored webhook URL column (null or empty is falsy),
as tested by line 320 of server.js. -/
def urlTruthy : Option String → Bool
  | none => false
  | some u => u != ""

/-- memberId extraction, line 248: body auth member_id is coerced to a
string when truthy, otherwise null. -/
def memberIdOf (auth_member_id : Option JVal) : Option String :=
  match auth_member_id with
  | some v => if truthy v then some (jsToString v) else none
  | none => none

/-- The terminal outcome of the post-acknowledgment task of the POST
handler; each constructor corresponds to one of the log-and-return exits
(lines 275-364 of server.js).  failed is the catch-all of the try/catch. -/
inductive HandlerOutcome where
  | noDealId
  | noMemberId
  | companyNotFound
  | companyDisabled
  | noWebhookUrl
  | notFound (reason : Option String)
  | closed (chatId : Option String)
  | failed (err : String)

/-- The database oracle standing for getCompanyByMemberId (the SELECT over
the companies table, lines 125-134): a lookup that can fail (backing-store
error, rethrown by the query) or return at most one row. -/
abbrev TenantDb := String → Except String (Option Company)

/-- The post-acknowledgment task of the POST handler, lines 241-365 of
server.js: extract the deal id and member id, stop on falsy values of
either; look the tenant up, stop when missing, disabled, or without a
webhook URL; otherwise run the resolution-and-closure workflow.  Failures
of the lookup or of the workflow are caught by the surrounding try/catch
and become the failed outcome.  The first component is the trace of
outbound calls. -/
def handleWebhook (db : TenantDb) (tr : Transport)
    (deal_id document_id auth_member_id : Option JVal) :
    List Call × HandlerOutcome :=
  match extractDealId deal_id document_id with
  | none => ([], .noDealId)
  | some d =>
    if d == "" then ([], .noDealId)
    else
      match memberIdOf auth_member_id with
      | none => ([], .noMemberId)
      | some m =>
        if m == "" then ([], .noMemberId)
        else
          match db m with
          | .error e => ([], .failed e)
          | .ok none => ([], .companyNotFound)
          | .ok (some company) =>
            if !company.enabled then ([], .companyDisabled)
            else if !urlTruthy company.bitrix_webhook_url then ([], .noWebhookUrl)
            else
              match finishOpenlinesChatIfAny tr company d with
              | (calls, .error e) => (calls, .failed e)
              | (calls, .ok r) =>
                (calls, if r.found then .closed r.chatId else .notFound r.reason)

/-- Whether a parsed JSON value is the JSON null. -/
def isNull : JVal → Bool
  | .null => true
  | _ => false

/-- Reading a field of a parsed JSON value without the null TypeError:
the last binding on an object, undefined elsewhere.  Used to state
properties of bx outcomes. -/
def fieldOr (v : JVal) (k : String) : JVal :=
  match v with
  | .obj fs => lookupField fs k
  | _ => .undefined

/-- Whether a parsed JSON value is an object carrying the given key. -/
def hasField (v : JVal) (k : String) : Bool :=
  match v with
  | .obj fs => fs.any (fun kv => kv.1 == k)
  | _ => false

/-- Modelled from the claim words for the failure message of bx: the best
available message in priority order — explicit error description, else
error code, else transport status text, else a generic fallback, each
candidate taken when truthy. -/
def specBestMessage (json : JVal) (statusText : String) : JVal :=
  let ed := fieldOr json "error_description"
  let er := fieldOr json "error"
  if truthy ed then ed
  else if truthy er then er
  else if statusText ≠ "" then JVal.str statusText
  else JVal.str "Unknown error"

/-- Modelled from the amended claim: the query rule takes any deal_id value
that is truthy and whose string coercion matches the anchored digits
pattern, and returns that string coercion. -/
def queryRuleAmended (deal_id : Option JVal) : Option String :=
  match deal_id with
  | none => none
  | some q =>
    if truthy q && isAllDigits (jsToString q) then some (jsToString q) else none

/-- The extraction exactly as the claim words it: the query parameter is
used only when it is itself a string matching the anchored digits pattern;
otherwise the body rule applies. -/
def extractDealIdClaimed (deal_id document_id : Option JVal) : Option String :=
  match deal_id with
  | some (JVal.str s) =>
    if isAllDigits s then some s else extractFromDocumentId document_id
  | _ => extractFromDocumentId document_id

/-- A concrete enabled tenant with a valid webhook URL, used by witnesses. -/
def companyA : Company := ⟨1, some "Acme", "mem1", some "http://x", true⟩

/-- A transport on which the chat resolution returns chat id 99 and every
other call (the close) succeeds. -/
def trFound : Transport := fun url _ =>
  if url = "http://x/imopenlines.crm.chat.getLastId" then
    .resp true "OK" (some (.obj [("result", .num 99)]))
  else .resp true "OK" (some (.obj [("result", .bool true)]))

/-- A transport on which the chat resolution returns chat id 0. -/
def trZero : Transport := fun _ _ =>
  .resp true "OK" (some (.obj [("result", .num 0)]))

/-- A transport on which every call fails with the not-found status text,
so the bx error message carries the not-found marker. -/
def trMissing : Transport := fun _ _ =>
  .resp false "Could not find CRM entity" none

/-- A transport on which every call fails with an unrelated server error. -/
def trBoom : Transport := fun _ _ => .resp false "Internal Server Error" none

/-- A transport whose response body carries an explicit but falsy error
field next to a result. -/
def trFalsyError : Transport := fun _ _ =>
  .resp true "OK" (some (.obj [("error", .str ""), ("result", .num 42)]))

/-- A tenant database whose backing store fails. -/
def dbDown : TenantDb := fun _ => .error "connection refused"

/-- A tenant database with no rows. -/
def dbEmpty : TenantDb := fun _ => .ok none

/-- A tenant database holding exactly the witness tenant under mem1. -/
def dbA : TenantDb := fun m => if m = "mem1" then .ok (some companyA) else .ok none

/-! ### Helper lemmas -/

theorem natDigsCore_ne_nil (fuel n : ℕ) (acc : List Char)
    (h : acc ≠ [] ∨ fuel ≠ 0) : natDigsCore fuel n acc ≠ [] := by
  induction fuel generalizing n acc with
  | zero =>
    rcases h with h | h
    · simpa [natDigsCore] using h
    · exact absurd rfl h
  | succ k ih =>
    simp only [natDigsCore]
    split
    · simp
    · exact ih _ _ (Or.inl (by simp))

theorem natStr_ne_empty (n : ℕ) : natStr n ≠ "" := fun hc =>
  natDigsCore_ne_nil (n + 1) n [] (Or.inr (Nat.succ_ne_zero n))
    (congrArg String.data hc)

theorem intStr_ne_empty (i : ℤ) : intStr i ≠ "" := by
  unfold intStr
  split
  · intro hc
    have hd := congrArg String.data hc
    simp only [String.data_append] at hd
    exact natStr_ne_empty i.natAbs (String.ext (List.append_eq_nil.mp hd).2)
  · exact natStr_ne_empty i.natAbs

theorem numToString_ne_empty (q : ℚ) : numToString q ≠ "" := by
  unfold numToString
  split
  · exact intStr_ne_empty q.num
  · intro hc
    have hd := congrArg String.data hc
    simp only [String.data_append] at hd
    rcases List.append_eq_nil.mp hd with ⟨h1, _⟩
    rcases List.append_eq_nil.mp h1 with ⟨h2, _⟩
    exact intStr_ne_empty q.num (String.ext h2)

theorem jsGtZero_jsLeZero {n : JNum} (h : jsGtZero n = true) :
    jsLeZero n = false := by
  cases n with
  | nan => rfl
  | posInf => rfl
  | negInf => exact absurd h (by simp [jsGtZero])
  | rat q =>
    simp only [jsGtZero, decide_eq_true_eq] at h
    simp only [jsLeZero, decide_eq_false_iff_not]
    linarith

theorem jsToString_ne_empty {v : JVal} (htr : truthy v = true)
    (hpos : jsGtZero (jsToNumber v) = true) : jsToString v ≠ "" := by
  cases v with
  | null => simp [truthy] at htr
  | undefined => simp [truthy] at htr
  | bool b =>
    cases b
    · simp [truthy] at htr
    · simp [jsToString]
  | num q => exact numToString_ne_empty q
  | str s =>
    intro hc
    rw [jsToString] at hc
    subst hc
    simp [truthy] at htr
  | arr xs =>
    intro hc
    rw [jsToString] at hc
    rw [jsToNumber, hc] at hpos
    simp [jsStringToNumber, trimChars, jsGtZero] at hpos
  | obj fs =>
    rw [jsToNumber] at hpos
    exact absurd hpos (by decide)

theorem bx_guard_of_ok {tr : Transport} {c : Company} {m : String}
    {ps : List (String × JVal)} {cs : List Call} {v : JVal}
    (h : bx tr c m ps = (cs, Except.ok v)) : bxGuardFails c = false := by
  cases hg : bxGuardFails c
  · rfl
  · rw [bx, hg] at h
    simp at h

theorem bx_calls_of_guard {tr : Transport} {c : Company} (m : String)
    (ps : List (String × JVal)) (hg : bxGuardFails c = false) :
    (bx tr c m ps).1 = [⟨bxUrl c m, encodeParams ps⟩] := by
  rw [bx, hg]
  simp only [Bool.false_eq_true, if_false]
  cases tr (bxUrl c m) (encodeParams ps) <;> rfl

/-! ### Claim theorems -/

/-- C1: whenever the resolution step succeeds with a truthy value whose
numeric coercion is positive, finishOpenlinesChatIfAny issues exactly one
further outbound call, to imopenlines.operator.another.finish with CHAT_ID
equal to the string form of that chat id; on success of the close it
returns found true, finished true and that chat id, and any failure of the
close call propagates to the caller unchanged. -/
theorem finish_invokes_close_once (tr : Transport) (c : Company)
    (dealId : String) (id : ℚ) (v : JVal) (cs1 : List Call)
    (hnum : jsStringToNumber dealId = JNum.rat id)
    (hres : bx tr c "imopenlines.crm.chat.getLastId"
        [("CRM_ENTITY_TYPE", JVal.str "DEAL"), ("CRM_ENTITY", JVal.num id)]
        = (cs1, Except.ok v))
    (htr : truthy v = true)
    (hpos : jsGtZero (jsToNumber v) = true) :
    finishOpenlinesChatIfAny tr c dealId =
      (cs1 ++ [⟨bxUrl c "imopenlines.operator.another.finish",
                [("CHAT_ID", jsToString v)]⟩],
       match (bx tr c "imopenlines.operator.another.finish"
               [("CHAT_ID", JVal.str (jsToString v))]).2 with
       | Except.error e => Except.error e
       | Except.ok _ => Except.ok ⟨true, true, some (jsToString v), none⟩) := by
  have hg : bxGuardFails c = false := bx_guard_of_ok hres
  have hle : jsLeZero (jsToNumber v) = false := jsGtZero_jsLeZero hpos
  have hlast : getLastOpenlinesChatIdForDeal tr c dealId
      = (cs1, Except.ok ⟨some (jsToString v), none⟩) := by
    simp [getLastOpenlinesChatIdForDeal, hnum, hres, htr, hle]
  have hne : (jsToString v == "") = false :=
    beq_eq_false_iff_ne.mpr (jsToString_ne_empty htr hpos)
  rw [finishOpenlinesChatIfAny, hlast]
  simp only [hne, Bool.false_eq_true, if_false]
  rcases hbc : bx tr c "imopenlines.operator.another.finish"
      [("CHAT_ID", JVal.str (jsToString v))] with ⟨cs2, r2⟩
  have hcalls : cs2 = [⟨bxUrl c "imopenlines.operator.another.finish",
      [("CHAT_ID", jsToString v)]⟩] := by
    have := @bx_calls_of_guard tr c
      "imopenlines.operator.another.finish" [("CHAT_ID", JVal.str (jsToString v))] hg
    rw [hbc] at this
    simpa [encodeParams, jsToString] using this
  subst hcalls
  cases r2 <;> rfl

/-- C1 witness: on the concrete transport whose resolve call returns 99 and
whose close succeeds, for the deal 42, the workflow issues the resolve call
and then exactly one close call with CHAT_ID 99 and reports
found, finished, chat 99. -/
theorem finish_invokes_close_once_witness :
    jsStringToNumber "42" = JNum.rat 42 ∧
    truthy (JVal.num 99) = true ∧
    jsGtZero (jsToNumber (JVal.num 99)) = true ∧
    finishOpenlinesChatIfAny trFound companyA "42" =
      ([⟨"http://x/imopenlines.crm.chat.getLastId",
         [("CRM_ENTITY_TYPE", "DEAL"), ("CRM_ENTITY", "42")]⟩,
        ⟨"http://x/imopenlines.operator.another.finish", [("CHAT_ID", "99")]⟩],
       Except.ok ⟨true, true, some "99", none⟩) :=
  ⟨rfl, rfl, rfl, by
    have h := finish_invokes_close_once trFound companyA "42" 42 (JVal.num 99)
      [⟨"http://x/imopenlines.crm.chat.getLastId",
        [("CRM_ENTITY_TYPE", "DEAL"), ("CRM_ENTITY", "42")]⟩]
      rfl rfl rfl rfl
    exact h.trans (by rfl)⟩

/-- C2: when the resolve call fails, a message carrying the not-found
marker is swallowed into the no-chat outcome — chatId null at the
resolution step and found false, finished false at the workflow level —
while a failure without the marker propagates unchanged from both. -/
theorem resolve_not_found_swallowed (tr : Transport) (c : Company)
    (dealId : String) (id : ℚ) (cs : List Call) (e : String)
    (hnum : jsStringToNumber dealId = JNum.rat id)
    (hres : bx tr c "imopenlines.crm.chat.getLastId"
        [("CRM_ENTITY_TYPE", JVal.str "DEAL"), ("CRM_ENTITY", JVal.num id)]
        = (cs, Except.error e)) :
    (hasSub e "Could not find CRM entity" = true →
      getLastOpenlinesChatIdForDeal tr c dealId
        = (cs, Except.ok ⟨none, some "Активный чат не найден"⟩) ∧
      finishOpenlinesChatIfAny tr c dealId
        = (cs, Except.ok ⟨false, false, none, some "Активный чат не найден"⟩)) ∧
    (hasSub e "Could not find CRM entity" = false →
      getLastOpenlinesChatIdForDeal tr c dealId = (cs, Except.error e) ∧
      finishOpenlinesChatIfAny tr c dealId = (cs, Except.error e)) := by
  constructor <;> intro h
  · have hlast : getLastOpenlinesChatIdForDeal tr c dealId
        = (cs, Except.ok ⟨none, some "Активный чат не найден"⟩) := by
      simp [getLastOpenlinesChatIdForDeal, hnum, hres, h]
    exact ⟨hlast, by rw [finishOpenlinesChatIfAny, hlast]⟩
  · have hlast : getLastOpenlinesChatIdForDeal tr c dealId
        = (cs, Except.error e) := by
      simp [getLastOpenlinesChatIdForDeal, hnum, hres, h]
    exact ⟨hlast, by rw [finishOpenlinesChatIfAny, hlast]⟩

/-- C2 witness: a transport failing with the not-found status text makes
the bx message carry the marker, and the workflow reports the no-chat
outcome instead of an exception. -/
theorem resolve_not_found_swallowed_witness :
    jsStringToNumber "42" = JNum.rat 42 ∧
    bx trMissing companyA "imopenlines.crm.chat.getLastId"
        [("CRM_ENTITY_TYPE", JVal.str "DEAL"), ("CRM_ENTITY", JVal.num 42)]
      = ([⟨"http://x/imopenlines.crm.chat.getLastId",
          [("CRM_ENTITY_TYPE", "DEAL"), ("CRM_ENTITY", "42")]⟩],
         Except.error
           "imopenlines.crm.chat.getLastId → Could not find CRM entity") ∧
    hasSub "imopenlines.crm.chat.getLastId → Could not find CRM entity"
        "Could not find CRM entity" = true ∧
    finishOpenlinesChatIfAny trMissing companyA "42"
      = ([⟨"http://x/imopenlines.crm.chat.getLastId",
          [("CRM_ENTITY_TYPE", "DEAL"), ("CRM_ENTITY", "42")]⟩],
         Except.ok ⟨false, false, none, some "Активный чат не найден"⟩) :=
  ⟨rfl, rfl, rfl,
    ((resolve_not_found_swallowed trMissing companyA "42" 42
      [⟨"http://x/imopenlines.crm.chat.getLastId",
        [("CRM_ENTITY_TYPE", "DEAL"), ("CRM_ENTITY", "42")]⟩]
      "imopenlines.crm.chat.getLastId → Could not find CRM entity"
      rfl rfl).1 rfl).2⟩

/-- C6: when the resolve call succeeds but yields a falsy value or one
whose numeric coercion is not positive, the workflow returns found false,
finished false, chatId null with the no-chat reason, and issues no further
outbound call beyond the resolve trace: a terminal, non-error outcome. -/
theorem nonpositive_chat_is_no_chat (tr : Transport) (c : Company)
    (dealId : String) (id : ℚ) (v : JVal) (cs : List Call)
    (hnum : jsStringToNumber dealId = JNum.rat id)
    (hres : bx tr c "imopenlines.crm.chat.getLastId"
        [("CRM_ENTITY_TYPE", JVal.str "DEAL"), ("CRM_ENTITY", JVal.num id)]
        = (cs, Except.ok v))
    (hfalsy : truthy v = false ∨ jsLeZero (jsToNumber v) = true) :
    finishOpenlinesChatIfAny tr c dealId
      = (cs, Except.ok ⟨false, false, none, some "Активный чат не найден"⟩) := by
  have hcond : (!truthy v || jsLeZero (jsToNumber v)) = true := by
    rcases hfalsy with h | h <;> simp [h]
  have hlast : getLastOpenlinesChatIdForDeal tr c dealId
      = (cs, Except.ok ⟨none, some "Активный чат не найден"⟩) := by
    simp [getLastOpenlinesChatIdForDeal, hnum, hres, hcond]
  rw [finishOpenlinesChatIfAny, hlast]

/-- C6 witness: a resolve returning chat id 0 yields the no-chat record and
the trace holds only the resolve call. -/
theorem nonpositive_chat_is_no_chat_witness :
    jsStringToNumber "42" = JNum.rat 42 ∧
    truthy (JVal.num 0) = false ∧
    finishOpenlinesChatIfAny trZero companyA "42"
      = ([⟨"http://x/imopenlines.crm.chat.getLastId",
          [("CRM_ENTITY_TYPE", "DEAL"), ("CRM_ENTITY", "42")]⟩],
         Except.ok ⟨false, false, none, some "Активный чат не найден"⟩) :=
  ⟨rfl, rfl,
    nonpositive_chat_is_no_chat trZero companyA "42" 42 (JVal.num 0)
      [⟨"http://x/imopenlines.crm.chat.getLastId",
        [("CRM_ENTITY_TYPE", "DEAL"), ("CRM_ENTITY", "42")]⟩]
      rfl rfl (Or.inl rfl)⟩

/-- C10: in every record that finishOpenlinesChatIfAny returns, the found
and finished flags agree, and the chat id is non-null exactly when the
flags are true. -/
theorem finish_flags_invariant (tr : Transport) (c : Company)
    (dealId : String) (cs : List Call) (r : FinishResult)
    (h : finishOpenlinesChatIfAny tr c dealId = (cs, Except.ok r)) :
    r.found = r.finished ∧ r.chatId.isSome = r.found := by
  rw [finishOpenlinesChatIfAny] at h
  rcases hg : getLastOpenlinesChatIdForDeal tr c dealId with ⟨cs1, r1⟩
  rw [hg] at h
  cases r1 with
  | error e => simp at h
  | ok lk =>
    rcases lk with ⟨cid, rsn⟩
    cases cid with
    | none =>
      simp only [Prod.mk.injEq, Except.ok.injEq] at h
      rw [← h.2]
      exact ⟨rfl, rfl⟩
    | some s =>
      simp only at h
      by_cases hs : (s == "") = true
      · rw [if_pos hs] at h
        simp only [Prod.mk.injEq, Except.ok.injEq] at h
        rw [← h.2]
        exact ⟨rfl, rfl⟩
      · rw [if_neg hs] at h
        rcases hb : bx tr c "imopenlines.operator.another.finish"
            [("CHAT_ID", JVal.str s)] with ⟨cs2, r2⟩
        rw [hb] at h
        cases r2 with
        | error e => simp at h
        | ok w =>
          simp only [Prod.mk.injEq, Except.ok.injEq] at h
          rw [← h.2]
          exact ⟨rfl, rfl⟩

/-- C10 witness: the no-chat outcome on the zero-id transport has equal
flags and a null chat id. -/
theorem finish_flags_invariant_witness :
    finishOpenlinesChatIfAny trZero companyA "42"
      = ([⟨"http://x/imopenlines.crm.chat.getLastId",
          [("CRM_ENTITY_TYPE", "DEAL"), ("CRM_ENTITY", "42")]⟩],
         Except.ok ⟨false, false, none, some "Активный чат не найден"⟩) ∧
    (false = false ∧ (none : Option String).isSome = false) :=
  ⟨rfl,
    finish_flags_invariant trZero companyA "42"
      [⟨"http://x/imopenlines.crm.chat.getLastId",
        [("CRM_ENTITY_TYPE", "DEAL"), ("CRM_ENTITY", "42")]⟩]
      ⟨false, false, none, some "Активный чат не найден"⟩ rfl⟩

/-- C5: once the request carries a usable deal id and member id, a tenant
lookup miss, a disabled tenant, and a tenant without a webhook URL each
stop the dispatcher with the corresponding outcome and an empty outbound
trace: the resolution-and-closure workflow is never invoked and no remote
call is made. -/
theorem tenant_gate_blocks_workflow (db : TenantDb) (tr : Transport)
    (deal_id document_id auth_member_id : Option JVal) (d m : String)
    (hd : extractDealId deal_id document_id = some d) (hd0 : d ≠ "")
    (hm : memberIdOf auth_member_id = some m) (hm0 : m ≠ "") :
    (db m = Except.ok none →
      handleWebhook db tr deal_id document_id auth_member_id
        = ([], HandlerOutcome.companyNotFound)) ∧
    (∀ c, db m = Except.ok (some c) → c.enabled = false →
      handleWebhook db tr deal_id document_id auth_member_id
        = ([], HandlerOutcome.companyDisabled)) ∧
    (∀ c, db m = Except.ok (some c) → c.enabled = true →
      urlTruthy c.bitrix_webhook_url = false →
      handleWebhook db tr deal_id document_id auth_member_id
        = ([], HandlerOutcome.noWebhookUrl)) := by
  have hd' : (d == "") = false := beq_eq_false_iff_ne.mpr hd0
  have hm' : (m == "") = false := beq_eq_false_iff_ne.mpr hm0
  refine ⟨fun hdb => ?_, fun c hdb hen => ?_, fun c hdb hen hurl => ?_⟩
  · simp [handleWebhook, hd, hd', hm, hm', hdb]
  · simp [handleWebhook, hd, hd', hm, hm', hdb, hen]
  · simp [handleWebhook, hd, hd', hm, hm', hdb, hen, hurl]

/-- C5 witness: with the empty tenant directory, the request for deal 42
from member mem1 stops at companyNotFound with no outbound call. -/
theorem tenant_gate_blocks_workflow_witness :
    extractDealId none
        (some (JVal.arr [JVal.str "crm", JVal.str "CCrmDocumentDeal",
          JVal.str "DEAL_42"])) = some "42" ∧
    memberIdOf (some (JVal.str "mem1")) = some "mem1" ∧
    dbEmpty "mem1" = Except.ok none ∧
    handleWebhook dbEmpty trFound none
        (some (JVal.arr [JVal.str "crm", JVal.str "CCrmDocumentDeal",
          JVal.str "DEAL_42"]))
        (some (JVal.str "mem1"))
      = ([], HandlerOutcome.companyNotFound) :=
  ⟨rfl, rfl, rfl,
    (tenant_gate_blocks_workflow dbEmpty trFound none
      (some (JVal.arr [JVal.str "crm", JVal.str "CCrmDocumentDeal",
        JVal.str "DEAL_42"]))
      (some (JVal.str "mem1")) "42" "mem1" rfl (by decide) rfl (by decide)).1 rfl⟩

/-- C8: the per-request task converts every failure of its fallible steps
into the logged failed outcome instead of throwing: a tenant lookup failure
is caught with an empty outbound trace, and a failure propagated out of the
resolution-and-closure workflow is caught with the trace of the calls the
workflow made.  handleWebhook is a total function into outcomes, so no such
failure escapes the task. -/
theorem handler_catches_failures (db : TenantDb) (tr : Transport)
    (deal_id document_id auth_member_id : Option JVal) (d m : String)
    (hd : extractDealId deal_id document_id = some d) (hd0 : d ≠ "")
    (hm : memberIdOf auth_member_id = some m) (hm0 : m ≠ "") :
    (∀ e, db m = Except.error e →
      handleWebhook db tr deal_id document_id auth_member_id
        = ([], HandlerOutcome.failed e)) ∧
    (∀ c e cs, db m = Except.ok (some c) → c.enabled = true →
      urlTruthy c.bitrix_webhook_url = true →
      finishOpenlinesChatIfAny tr c d = (cs, Except.error e) →
      handleWebhook db tr deal_id document_id auth_member_id
        = (cs, HandlerOutcome.failed e)) := by
  have hd' : (d == "") = false := beq_eq_false_iff_ne.mpr hd0
  have hm' : (m == "") = false := beq_eq_false_iff_ne.mpr hm0
  refine ⟨fun e hdb => ?_, fun c e cs hdb hen hurl hfin => ?_⟩
  · simp [handleWebhook, hd, hd', hm, hm', hdb]
  · simp [handleWebhook, hd, hd', hm, hm', hdb, hen, hurl, hfin]

/-- C8 witness: a failing tenant lookup is caught and becomes the failed
outcome with no outbound call. -/
theorem handler_catches_failures_witness :
    extractDealId none
        (some (JVal.arr [JVal.str "crm", JVal.str "CCrmDocumentDeal",
          JVal.str "DEAL_42"])) = some "42" ∧
    memberIdOf (some (JVal.str "mem1")) = some "mem1" ∧
    dbDown "mem1" = Except.error "connection refused" ∧
    handleWebhook dbDown trFound none
        (some (JVal.arr [JVal.str "crm", JVal.str "CCrmDocumentDeal",
          JVal.str "DEAL_42"]))
        (some (JVal.str "mem1"))
      = ([], HandlerOutcome.failed "connection refused") :=
  ⟨rfl, rfl, rfl,
    (handler_catches_failures dbDown trFound none
      (some (JVal.arr [JVal.str "crm", JVal.str "CCrmDocumentDeal",
        JVal.str "DEAL_42"]))
      (some (JVal.str "mem1")) "42" "mem1" rfl (by decide) rfl (by decide)).1
      "connection refused" rfl⟩

/-- C3 counterexample: a query value that is not a string — the
single-element array holding the digit string — is taken by the code (its
string coercion matches the digits pattern), while the claim as stated
sends such a request to the body rule and, with no document_id, to null. -/
theorem extractDealId_counterexample :
    extractDealId (some (JVal.arr [JVal.str "475509"])) none = some "475509" ∧
    extractDealIdClaimed (some (JVal.arr [JVal.str "475509"])) none = none :=
  ⟨rfl, rfl⟩

/-- C3 amended: extractDealId uses the query value whenever it is truthy
and its string coercion matches the anchored digits pattern, returning
exactly that coercion, and falls back to the document_id rule otherwise;
in particular every digit-string query value is returned exactly, and the
example document row yields 475509. -/
theorem extractDealId_characterization :
    (∀ deal_id document_id, extractDealId deal_id document_id =
      (queryRuleAmended deal_id).orElse
        (fun _ => extractFromDocumentId document_id)) ∧
    extractDealId none
        (some (JVal.arr [JVal.str "crm", JVal.str "CCrmDocumentDeal",
          JVal.str "DEAL_475509"])) = some "475509" ∧
    (∀ s document_id, isAllDigits s = true →
      extractDealId (some (JVal.str s)) document_id = some s) := by
  refine ⟨fun deal_id document_id => ?_, rfl, fun s document_id h => ?_⟩
  · cases deal_id with
    | none => rfl
    | some q =>
      by_cases hq : (truthy q && isAllDigits (jsToString q)) = true
      · simp [extractDealId, queryRuleAmended, hq, Option.orElse]
      · simp only [Bool.not_eq_true] at hq
        simp [extractDealId, queryRuleAmended, hq, Option.orElse]
  · have hs : s ≠ "" := by
      intro he
      subst he
      simp [isAllDigits] at h
    simp [extractDealId, jsToString, truthy, h, beq_eq_false_iff_ne.mpr hs]

/-- C3 witness: the digit-string query value 123 is returned exactly. -/
theorem extractDealId_characterization_witness :
    isAllDigits "123" = true ∧
    extractDealId (some (JVal.str "123")) none = some "123" :=
  ⟨rfl, extractDealId_characterization.2.2 "123" none rfl⟩

/-- C4 counterexample: a successful transport status with a body that
carries an explicit error field whose value is the empty string — the call
does not fail, bx returns the result payload, against the claimed
fails-iff condition. -/
theorem bx_counterexample :
    hasField (JVal.obj [("error", JVal.str ""), ("result", JVal.num 42)])
        "error" = true ∧
    trFalsyError (bxUrl companyA "some.method") []
      = TransportResp.resp true "OK"
          (some (JVal.obj [("error", JVal.str ""), ("result", JVal.num 42)])) ∧
    bx trFalsyError companyA "some.method" []
      = ([⟨"http://x/some.method", []⟩], Except.ok (JVal.num 42)) :=
  ⟨rfl, rfl, rfl⟩

/-- C4 amended: for a call that passes the URL guard and obtains a
transport response, bx makes exactly one outbound call and fails iff the
status is unsuccessful, the parsed body is JSON null (a TypeError from the
property read), or the error field of the body is truthy; a non-TypeError
failure message is the method name joined to the best available message in
priority order, and on success bx returns exactly the result payload. -/
theorem bx_outcome_characterization (tr : Transport) (c : Company)
    (method : String) (params : List (String × JVal))
    (ok : Bool) (st : String) (mb : Option JVal)
    (hguard : bxGuardFails c = false)
    (hr : tr (bxUrl c method) (encodeParams params)
      = TransportResp.resp ok st mb)
    (hbody : mb ≠ some JVal.undefined) :
    bx tr c method params
      = ([⟨bxUrl c method, encodeParams params⟩],
         bxResponseOutcome method ok st mb) ∧
    bxResponseOutcome method ok st mb
      = (if isNull (mb.getD (JVal.obj [])) then
           Except.error
             (typeErrorMsg (if ok then "error" else "error_description"))
         else if !ok || truthy (fieldOr (mb.getD (JVal.obj [])) "error") then
           Except.error (method ++ " → " ++
             jsToString (specBestMessage (mb.getD (JVal.obj [])) st))
         else Except.ok (fieldOr (mb.getD (JVal.obj [])) "result")) := by
  constructor
  · rw [bx, hguard]
    simp only [Bool.false_eq_true, if_false]
    rw [hr]
  · rcases mb with _ | j
    · cases ok <;> rfl
    · cases j <;> cases ok <;>
        first
          | exact absurd rfl hbody
          | rfl

/-- C4 witness: on the transport that rejects every call with the
not-found status text and an unparseable body, the characterization holds
at the resolve call of the witness tenant. -/
theorem bx_outcome_characterization_witness :
    bxGuardFails companyA = false ∧
    trMissing (bxUrl companyA "imopenlines.crm.chat.getLastId")
        (encodeParams
          [("CRM_ENTITY_TYPE", JVal.str "DEAL"), ("CRM_ENTITY", JVal.num 42)])
      = TransportResp.resp false "Could not find CRM entity" none ∧
    (bx trMissing companyA "imopenlines.crm.chat.getLastId"
        [("CRM_ENTITY_TYPE", JVal.str "DEAL"), ("CRM_ENTITY", JVal.num 42)]
      = ([⟨bxUrl companyA "imopenlines.crm.chat.getLastId",
           encodeParams [("CRM_ENTITY_TYPE", JVal.str "DEAL"),
             ("CRM_ENTITY", JVal.num 42)]⟩],
         bxResponseOutcome "imopenlines.crm.chat.getLastId" false
           "Could not find CRM entity" none) ∧
     bxResponseOutcome "imopenlines.crm.chat.getLastId" false
         "Could not find CRM entity" none
       = (if isNull ((none : Option JVal).getD (JVal.obj [])) then
            Except.error (typeErrorMsg
              (if false then "error" else "error_description"))
          else if !false ||
              truthy (fieldOr ((none : Option JVal).getD (JVal.obj []))
                "error") then
            Except.error ("imopenlines.crm.chat.getLastId" ++ " → " ++
              jsToString (specBestMessage
                ((none : Option JVal).getD (JVal.obj []))
                "Could not find CRM entity"))
          else Except.ok (fieldOr ((none : Option JVal).getD (JVal.obj []))
            "result"))) :=
  ⟨rfl, rfl,
    bx_outcome_characterization trMissing companyA
      "imopenlines.crm.chat.getLastId"
      [("CRM_ENTITY_TYPE", JVal.str "DEAL"), ("CRM_ENTITY", JVal.num 42)]
      false "Could not find CRM entity" none rfl rfl (by simp)⟩

end OpenlinesCloser
